import Mathlib

/-!
Verification of the catalyst command-line surface (`main.py`).

Each click command is embedded as a pure Lean function from an option record
(the values click hands the callback) to `Except String (List Effect)`:
`Except.error msg` models `ctx.fail(msg)` (which raises a usage error and
exits non-zero before anything else runs), and `Except.ok effs` models a
normal return together with the ordered list of observable actions the
command body performs (console writes, file writes, and calls to the
external collaborators `_run`, `remote_backtest`, `get_remote_status`,
`ExchangeBundle.ingest`).

Results produced by external collaborators (the perf object returned by
`_run`, the algo id returned by `remote_backtest`, the poll response
returned by `get_remote_status`) are parameters of the embedded commands,
since the collaborators themselves are outside the modelled core.
-/

namespace Catalyst

/-- The discard sentinel `os.devnull`, on the POSIX platform the CLI runs on. -/
def devnull : String := "/dev/null"

/-- Python `str` applied to an optional string value: `str(None)` is `"None"`. -/
def pyStr : Option String → String
  | some s => s
  | none => "None"

/-- Python truthiness of an optional string: `None` and the empty string are falsy. -/
def pyTruthy : Option String → Bool
  | none => false
  | some s => !s.isEmpty

/-- Observable actions of a command body, in execution order.
`echoOut s` is `click.echo(s, sys.stdout)`, `echoErr s` is
`click.echo(s, sys.stderr)`, `printOut s` is Python `print(s)`,
`callRun lv ln` is the `_run` collaborator invocation with `live=lv` and the
forwarded `local_namespace` value, `callRemoteBacktest ln m` is the
`remote_backtest` submission, `callPoll i` is `get_remote_status(algo_id=i)`,
`callIngest ...` is `ExchangeBundle.ingest` with the forwarded selection
arguments, `toPickle p d` is `d.to_pickle(p)` and `fileWrite p d` is
`open(p, 'w').write(d)`. -/
inductive Effect where
  | echoOut (s : String)
  | echoErr (s : String)
  | printOut (s : String)
  | callRun (lv : Bool) (local_namespace : Option Bool)
  | callRemoteBacktest (local_namespace : Option Bool) (mail : String)
  | callPoll (algo_id : String)
  | callIngest (exchange : String)
      (start end_ include_symbols exclude_symbols csv : Option String)
  | toPickle (path : String) (data : String)
  | fileWrite (path : String) (data : String)
  deriving DecidableEq, Repr

/-- Is the effect a persistence of an artifact (file write or pickle)? -/
def isWrite : Effect → Bool
  | .toPickle _ _ => true
  | .fileWrite _ _ => true
  | _ => false

/-- Option record of the `run` command (dates and the bundle timestamp are
kept as opaque strings; `capital_base`, a float in the source, is opaque as
well since only its presence is ever inspected). The source's `end` option
is called `end_` because `end` is a Lean keyword. -/
structure RunOpts where
  algofile : Option String
  algotext : Option String
  define : List String
  data_frequency : String
  capital_base : Option Int
  bundle : String
  bundle_timestamp : String
  start : Option String
  end_ : Option String
  output : String
  print_algo : Bool
  local_namespace : Option Bool
  exchange_name : Option String
  algo_namespace : Option String
  quote_currency : Option String
  deriving DecidableEq, Repr

/-- Validation chain of `run` (main.py lines 230-259), in source order,
returning the first failing diagnostic. -/
def runChecks (o : RunOpts) : Option String :=
  if o.algotext.isSome == o.algofile.isSome then
    some "must specify exactly one of '-f' / '--algofile' or '-t' / '--algotext'"
  else if o.start.isNone && o.end_.isNone then
    some "must specify dates with '-s' / '--start' and '-e' / '--end' in backtest mode"
  else if o.start.isNone then
    some "must specify a start date with '-s' / '--start' in backtest mode"
  else if o.end_.isNone then
    some "must specify an end date with '-e' / '--end' in backtest mode"
  else if o.exchange_name.isNone then
    some "must specify an exchange name '-x'"
  else if o.quote_currency.isNone then
    some "must specify a quote currency with '-c' in backtest mode"
  else if o.capital_base.isNone then
    some "must specify a capital base with '--capital-base'"
  else
    none

/-- Output-destination handling of `run` (main.py lines 293-298): `--` is a
silent no-write, `-` echoes the perf to stdout, the discard sentinel writes
nothing, anything else is pickled to that path. -/
def outputEffectsRun (output : String) (perf : String) : List Effect :=
  if output = "--" then []
  else if output = "-" then [.echoOut perf]
  else if output ≠ devnull then [.toPickle output perf]
  else []

/-- The `run` command (main.py lines 211-300): validation, mode banner,
`_run` invocation, then output handling. `perf` is the performance object
returned by the external `_run` collaborator, as its serialized form. -/
def run (o : RunOpts) (perf : String) : Except String (List Effect) :=
  match runChecks o with
  | some msg => .error msg
  | none =>
      .ok ([.echoOut "Running in backtesting mode.",
            .callRun false o.local_namespace] ++ outputEffectsRun o.output perf)

/-- Option record of the `live` command. -/
structure LiveOpts where
  algofile : Option String
  capital_base : Option Int
  algotext : Option String
  define : List String
  output : String
  print_algo : Bool
  local_namespace : Option Bool
  exchange_name : Option String
  algo_namespace : Option String
  quote_currency : Option String
  start : Option String
  end_ : Option String
  live_graph : Bool
  auth_aliases : Option String
  simulate_orders : Bool
  deriving DecidableEq, Repr

/-- Validation chain of `live` (main.py lines 455-471), in source order. -/
def liveChecks (o : LiveOpts) : Option String :=
  if o.algotext.isSome == o.algofile.isSome then
    some "must specify exactly one of '-f' / '--algofile' or '-t' / '--algotext'"
  else if o.exchange_name.isNone then
    some "must specify an exchange name '-x'"
  else if o.algo_namespace.isNone then
    some "must specify an algorithm name '-n' in live execution mode"
  else if o.quote_currency.isNone then
    some "must specify a quote currency '-c' in live execution mode"
  else if o.capital_base.isNone then
    some "must specify a capital base with '--capital-base'"
  else
    none

/-- Output-destination handling of `live` (main.py lines 509-512): unlike
`run`, there is no `--` branch; `-` echoes to stdout, the discard sentinel
writes nothing, anything else (including the literal `--`) is pickled to
that path. -/
def outputEffectsLive (output : String) (perf : String) : List Effect :=
  if output = "-" then [.echoOut perf]
  else if output ≠ devnull then [.toPickle output perf]
  else []

/-- The `live` command (main.py lines 437-514). -/
def live (o : LiveOpts) (perf : String) : Except String (List Effect) :=
  match liveChecks o with
  | some msg => .error msg
  | none =>
      .ok ((if o.simulate_orders then [Effect.echoOut "Running in paper trading mode."]
            else [Effect.echoOut "Running in live trading mode."]) ++
           [.callRun true o.local_namespace] ++ outputEffectsLive o.output perf)

/-- Character list matcher for the part of the email pattern after the `@`:
a prefix of the form `[^@]+ '.' [^@]`, i.e. one or more non-`@` characters,
a dot, then at least one more non-`@` character, with backtracking over the
position of the dot exactly as `re` does. -/
def bodyTail : List Char → Bool
  | [] => false
  | c :: rest =>
      c != '@' &&
        ((match rest with
          | '.' :: d :: _ => d != '@'
          | _ => false) ||
         bodyTail rest)

/-- Embedding of `re.match(r"[^@]+@[^@]+\.[^@]+", mail)` (main.py line 665):
a prefix match anchored at the start of the string. Because `[^@]+` cannot
cross an `@`, the literal `@` of the pattern necessarily matches the first
`@` of the string. -/
def reMatchEmail (s : String) : Bool :=
  let cs := s.data
  let a := cs.takeWhile (fun c => c != '@')
  match cs.drop a.length with
  | '@' :: t => !a.isEmpty && bodyTail t
  | _ => false

/-- Option record of the `remote-run` command. -/
structure RemoteRunOpts where
  algofile : Option String
  algotext : Option String
  define : List String
  data_frequency : String
  capital_base : Option Int
  bundle : String
  bundle_timestamp : String
  start : Option String
  end_ : Option String
  mail : Option String
  print_algo : Bool
  local_namespace : Option Bool
  exchange_name : Option String
  algo_namespace : Option String
  quote_currency : Option String
  deriving DecidableEq, Repr

/-- Validation chain of `remote-run` (main.py lines 634-666): the `run`
rules followed by the mail-shape check. -/
def remoteRunChecks (o : RemoteRunOpts) : Option String :=
  if o.algotext.isSome == o.algofile.isSome then
    some "must specify exactly one of '-f' / '--algofile' or '-t' / '--algotext'"
  else if o.start.isNone && o.end_.isNone then
    some "must specify dates with '-s' / '--start' and '-e' / '--end' in backtest mode"
  else if o.start.isNone then
    some "must specify a start date with '-s' / '--start' in backtest mode"
  else if o.end_.isNone then
    some "must specify an end date with '-e' / '--end' in backtest mode"
  else if o.exchange_name.isNone then
    some "must specify an exchange name '-x'"
  else if o.quote_currency.isNone then
    some "must specify a quote currency with '-c' in backtest mode"
  else if o.capital_base.isNone then
    some "must specify a capital base with '--capital-base'"
  else if (match o.mail with
           | none => true
           | some m => !reMatchEmail m) then
    some "must specify a valid email with '--mail'"
  else
    none

/-- The `remote-run` command (main.py lines 615-699): validation, then the
`remote_backtest` submission and the print of the returned algo id.
`algo_id` is the identifier the external collaborator returns. -/
def remote_run (o : RemoteRunOpts) (algo_id : String) : Except String (List Effect) :=
  match remoteRunChecks o with
  | some msg => .error msg
  | none =>
      .ok [.callRemoteBacktest o.local_namespace (pyStr o.mail),
           .printOut algo_id]

/-- Option record of the `remote-status` command. -/
structure RemoteStatusOpts where
  algo_id : Option String
  data_output : String
  log_output : String
  deriving DecidableEq, Repr

/-- Poll response returned by the external `get_remote_status` collaborator:
either a bare status value, or the triple `(status, perf, log)` (the source
discriminates with `isinstance(status_response, tuple)`). The perf and the
log may each be absent (`None`). -/
inductive StatusResponse where
  | bare (status : String)
  | triple (status : String) (perf : Option String) (log : Option String)
  deriving DecidableEq, Repr

/-- Log-destination handling of `remote-status` (main.py lines 741-745):
`-` echoes `str(log)` to stderr (even when the log is `None`), the discard
sentinel writes nothing, any other token is opened as a file and the log is
written to it — which raises a `TypeError` when the log is `None`. -/
def logWriteEffects (log_output : String) (log : Option String) :
    Except String (List Effect) :=
  if log_output = "-" then .ok [.echoErr (pyStr log)]
  else if log_output ≠ devnull then
    match log with
    | some s => .ok [.fileWrite log_output s]
    | none => .error "TypeError: write() argument must be str, not NoneType"
  else .ok []

/-- Data-destination handling of `remote-status` (main.py lines 747-753):
nothing happens when the perf is absent; otherwise `-` echoes the perf to
stdout behind the explanatory label, the discard sentinel writes nothing,
and any other token is a pickle path. -/
def perfWriteEffects (data_output : String) (perf : Option String) : List Effect :=
  match perf with
  | none => []
  | some p =>
      if data_output = "-" then
        [.echoOut ("the performance data is:\n" ++ p)]
      else if data_output ≠ devnull then [.toPickle data_output p]
      else []

/-- The `remote-status` command (main.py lines 728-758): id validation,
poll, then — for a triple response — log handling, perf handling and the
final status print; for a bare response just the status print. `resp` is
the response the external collaborator returns. -/
def remote_status (o : RemoteStatusOpts) (resp : StatusResponse) :
    Except String (List Effect) :=
  match o.algo_id with
  | none => .error "must specify an id of your running algorithm with '--id'"
  | some i =>
      match resp with
      | .bare s => .ok [.callPoll i, .printOut s]
      | .triple status perf log =>
          match logWriteEffects o.log_output log with
          | .error e => .error e
          | .ok le =>
              .ok ([.callPoll i] ++ le ++ perfWriteEffects o.data_output perf ++
                   [.printOut status])

/-- Modelled from the spec: the fixed known-exchange set (the source imports
it as `EXCHANGE_NAMES` from the exchange bundle utilities, which are not
under `src/`). -/
def EXCHANGE_NAMES : List String := ["bitfinex", "bittrex", "poloniex", "binance"]

/-- Python `repr` of a list of strings, as `str.format` renders it. -/
def pyListRepr (l : List String) : String :=
  "[" ++ String.intercalate ", " (l.map (fun s => "'" ++ s ++ "'")) ++ "]"

/-- Option record of the `ingest-exchange` command. -/
structure IngestOpts where
  exchange_name : Option String
  data_frequency : String
  start : Option String
  end_ : Option String
  include_symbols : Option String
  exclude_symbols : Option String
  csv : Option String
  show_progress : Bool
  verbose : Bool
  validate : Bool
  deriving DecidableEq, Repr

/-- Validation chain of `ingest-exchange` (main.py lines 831-838): the
exchange name is required; without a (truthy) csv override it must belong
to the known-exchange set, and the failure message lists that set. -/
def ingestChecks (o : IngestOpts) : Option String :=
  match o.exchange_name with
  | none => some "must specify an exchange name '-x'"
  | some name =>
      if !pyTruthy o.csv && !EXCHANGE_NAMES.contains name then
        some ("ingest-exchange does not support " ++ name ++
              ", please choose exchange from: " ++ pyListRepr EXCHANGE_NAMES)
      else none

/-- The `ingest-exchange` command (main.py lines 824-854): validation, the
progress banner, then the external `ExchangeBundle.ingest` call with the
supplied selection arguments forwarded as given. -/
def ingest_exchange (o : IngestOpts) : Except String (List Effect) :=
  match ingestChecks o with
  | some msg => .error msg
  | none =>
      .ok [.echoOut ("Trying to ingest exchange bundle " ++
                     pyStr o.exchange_name ++ "..."),
           .callIngest (pyStr o.exchange_name) o.start o.end_
             o.include_symbols o.exclude_symbols o.csv]

/-- Modelled from the spec: the data selection the external
`ExchangeBundle.ingest` collaborator (not under `src/`) actually uses —
when a CSV override path is supplied, the date range and symbol filters are
ignored entirely and all data in the file is ingested instead. -/
def effectiveIngestSelection
    (start end_ include_symbols exclude_symbols csv : Option String) :
    Option String × Option String × Option String × Option String :=
  if pyTruthy csv then (none, none, none, none)
  else (start, end_, include_symbols, exclude_symbols)

/-- The `ipython_only` decorator (main.py lines 82-107) as applied to the
`--local-namespace` option of `run`: outside IPython it overwrites the
`local_namespace` keyword with `None` before the command body runs. -/
def ipython_only_run (ipython : Bool) (o : RunOpts) : RunOpts :=
  if ipython then o else { o with local_namespace := none }

/-- The `ipython_only` decorator as applied to `live`. -/
def ipython_only_live (ipython : Bool) (o : LiveOpts) : LiveOpts :=
  if ipython then o else { o with local_namespace := none }

/-- The `ipython_only` decorator as applied to `remote-run`. -/
def ipython_only_remote_run (ipython : Bool) (o : RemoteRunOpts) : RemoteRunOpts :=
  if ipython then o else { o with local_namespace := none }

/-- Validation outcome of a command result: the diagnostic when it failed,
`none` when it was accepted. -/
def errOf {α : Type} : Except String α → Option String
  | .error m => some m
  | .ok _ => none

/-- The shared mutual-exclusivity diagnostic of `run`, `live`, `remote-run`. -/
def mutualSourceMsg : String :=
  "must specify exactly one of '-f' / '--algofile' or '-t' / '--algotext'"

/-- A fully valid `run` option record, used as a base for concrete witnesses. -/
def baseRunOpts : RunOpts :=
  { algofile := none, algotext := some "def initialize(c): pass",
    define := [], data_frequency := "daily", capital_base := some 1000,
    bundle := "poloniex", bundle_timestamp := "2018-01-01",
    start := some "2017-01-01", end_ := some "2017-06-01", output := "-",
    print_algo := false, local_namespace := none,
    exchange_name := some "poloniex", algo_namespace := none,
    quote_currency := some "usd" }

/-- A fully valid `live` option record, used as a base for concrete witnesses. -/
def baseLiveOpts : LiveOpts :=
  { algofile := none, capital_base := some 1000,
    algotext := some "def initialize(c): pass",
    define := [], output := "-", print_algo := false, local_namespace := none,
    exchange_name := some "poloniex", algo_namespace := some "mine",
    quote_currency := some "usd", start := none, end_ := none,
    live_graph := false, auth_aliases := none, simulate_orders := true }

/-- A fully valid `remote-run` option record, used as a base for concrete
witnesses. -/
def baseRemoteRunOpts : RemoteRunOpts :=
  { algofile := none, algotext := some "def initialize(c): pass",
    define := [], data_frequency := "daily", capital_base := some 1000,
    bundle := "poloniex", bundle_timestamp := "2018-01-01",
    start := some "2017-01-01", end_ := some "2017-06-01",
    mail := some "ops@example.com", print_algo := false,
    local_namespace := none, exchange_name := some "poloniex",
    algo_namespace := none, quote_currency := some "usd" }

/-- Concrete `run` options with both algorithm sources supplied. -/
def c1ro : RunOpts :=
  { baseRunOpts with algofile := some "algo.py" }

/-- Concrete `live` options with neither algorithm source supplied. -/
def c1lo : LiveOpts :=
  { baseLiveOpts with algotext := none }

/-- Concrete `remote-run` options with both algorithm sources supplied. -/
def c1mo : RemoteRunOpts :=
  { baseRemoteRunOpts with algofile := some "algo.py" }

/-- Concrete `remote-status` options with both destinations at the console. -/
def c2o : RemoteStatusOpts :=
  { algo_id := some "job-1", data_output := "-", log_output := "-" }

/-- Effects of `remote-status` on `c2o` with a completed triple response. -/
def c2effs : List Effect :=
  [.callPoll "job-1", .echoErr "LOG",
   .echoOut ("the performance data is:\nPERF"), .printOut "completed"]

/-- Concrete `live` options with the `--` destination token. -/
def c3lo : LiveOpts :=
  { baseLiveOpts with output := "--" }

/-- Concrete `run` options writing the perf to a plain file path. -/
def c3ro : RunOpts :=
  { baseRunOpts with output := "out.pkl" }

/-- Concrete `ingest-exchange` options with an unknown exchange and no csv. -/
def c4o : IngestOpts :=
  { exchange_name := some "unknownxyz", data_frequency := "daily",
    start := none, end_ := none, include_symbols := none,
    exclude_symbols := none, csv := none, show_progress := true,
    verbose := false, validate := false }

/-- Concrete `ingest-exchange` options with an unknown exchange, a csv
override, and date/symbol filters also supplied. -/
def c4oc : IngestOpts :=
  { c4o with
    csv := some "bars.csv", start := some "2017-01-01",
    include_symbols := some "btc_usd" }

/-- Concrete `run` options with only a start date. -/
def c5ro : RunOpts :=
  { baseRunOpts with end_ := none }

/-- Concrete `run` options with only an end date. -/
def c5ro2 : RunOpts :=
  { baseRunOpts with start := none }

/-- Concrete `run` options with neither date. -/
def c5ro3 : RunOpts :=
  { baseRunOpts with start := none, end_ := none }

/-- Concrete `remote-run` options with only a start date. -/
def c5mo : RemoteRunOpts :=
  { baseRemoteRunOpts with end_ := none }

/-- Concrete `remote-run` options with only an end date. -/
def c5mo2 : RemoteRunOpts :=
  { baseRemoteRunOpts with start := none }

/-- Concrete `remote-run` options with neither date. -/
def c5mo3 : RemoteRunOpts :=
  { baseRemoteRunOpts with start := none, end_ := none }

/-- Concrete `remote-run` options with a malformed notification address. -/
def c6mo : RemoteRunOpts :=
  { baseRemoteRunOpts with mail := some "not-an-email" }

/-- Concrete `live` options with no algorithm namespace label. -/
def c8lo : LiveOpts :=
  { baseLiveOpts with algo_namespace := none }

/-- Concrete `run` options where the operator supplied `--local-namespace`. -/
def c10ro : RunOpts :=
  { baseRunOpts with local_namespace := some true }

/-- Concrete `live` options where the operator supplied `--local-namespace`. -/
def c10lo : LiveOpts :=
  { baseLiveOpts with local_namespace := some true }

/-- Concrete `remote-run` options where the operator supplied
`--no-local-namespace`. -/
def c10mo : RemoteRunOpts :=
  { baseRemoteRunOpts with local_namespace := some false }

/-- Concrete `remote-status` options for the bare-status claim. -/
def c7o : RemoteStatusOpts :=
  { algo_id := some "job-2", data_output := "-", log_output := "-" }

/-- Concrete `remote-status` options with no job identifier. -/
def c9o : RemoteStatusOpts :=
  { algo_id := none, data_output := "-", log_output := "-" }

/-- Effects of `run` on `c10ro` outside IPython. -/
def c10runEffs : List Effect :=
  [.echoOut "Running in backtesting mode.", .callRun false none, .echoOut "P"]

/-- Effects of `live` on `c10lo` outside IPython. -/
def c10liveEffs : List Effect :=
  [.echoOut "Running in paper trading mode.", .callRun true none, .echoOut "P"]

/-- Effects of `remote-run` on `c10mo` outside IPython. -/
def c10remoteEffs : List Effect :=
  [.callRemoteBacktest none "ops@example.com", .printOut "A"]

/-- C1: for each of `run`, `live` and `remote-run`, if both of algofile and
algotext are supplied, or neither is, the command fails validation with the
mutual-exclusivity diagnostic (a non-zero exit) and never reaches the
`_run` / `remote_backtest` collaborator: no effect list is produced at all. -/
theorem c1_mutual_exclusion
    (ro : RunOpts) (lo : LiveOpts) (mo : RemoteRunOpts) (perf lperf aid : String)
    (hr : ro.algotext.isSome = ro.algofile.isSome)
    (hl : lo.algotext.isSome = lo.algofile.isSome)
    (hm : mo.algotext.isSome = mo.algofile.isSome) :
    (run ro perf = Except.error mutualSourceMsg ∧
      ∀ effs, run ro perf ≠ Except.ok effs) ∧
    (live lo lperf = Except.error mutualSourceMsg ∧
      ∀ effs, live lo lperf ≠ Except.ok effs) ∧
    (remote_run mo aid = Except.error mutualSourceMsg ∧
      ∀ effs, remote_run mo aid ≠ Except.ok effs) := by
  have h1 : run ro perf = Except.error mutualSourceMsg := by
    simp [run, runChecks, hr, mutualSourceMsg]
  have h2 : live lo lperf = Except.error mutualSourceMsg := by
    simp [live, liveChecks, hl, mutualSourceMsg]
  have h3 : remote_run mo aid = Except.error mutualSourceMsg := by
    simp [remote_run, remoteRunChecks, hm, mutualSourceMsg]
  refine ⟨⟨h1, ?_⟩, ⟨h2, ?_⟩, ⟨h3, ?_⟩⟩ <;> intro effs h <;> simp_all

/-- Witness for C1 at concrete invocations. -/
theorem c1_witness :
    (run c1ro "P" = Except.error mutualSourceMsg ∧
      ∀ effs, run c1ro "P" ≠ Except.ok effs) ∧
    (live c1lo "P" = Except.error mutualSourceMsg ∧
      ∀ effs, live c1lo "P" ≠ Except.ok effs) ∧
    (remote_run c1mo "A" = Except.error mutualSourceMsg ∧
      ∀ effs, remote_run c1mo "A" ≠ Except.ok effs) :=
  c1_mutual_exclusion c1ro c1lo c1mo "P" "P" "A" rfl rfl rfl

/-- Helper: the last element of a list ending in a singleton. -/
theorem getLast_app (l : List Effect) (a : Effect) : (l ++ [a]).getLast? = some a := by
  rw [List.getLast?_append_cons]
  rfl

/-- Helper: log handling at the console token. -/
theorem logWrite_dash (l : String) :
    logWriteEffects "-" (some l) = Except.ok [Effect.echoErr l] := rfl

/-- Helper: log handling at the discard sentinel. -/
theorem logWrite_devnull (log : Option String) :
    logWriteEffects devnull log = Except.ok [] := rfl

/-- Helper: log handling at a plain file path. -/
theorem logWrite_path (lo : String) (l : String) (h1 : lo ≠ "-") (h2 : lo ≠ devnull) :
    logWriteEffects lo (some l) = Except.ok [Effect.fileWrite lo l] := by
  simp [logWriteEffects, h1, h2]

/-- Helper: perf handling at the console token. -/
theorem perfWrite_dash (p : String) :
    perfWriteEffects "-" (some p) =
      [Effect.echoOut ("the performance data is:\n" ++ p)] := rfl

/-- Helper: perf handling at the discard sentinel. -/
theorem perfWrite_devnull (p : String) :
    perfWriteEffects devnull (some p) = [] := rfl

/-- Helper: perf handling at a plain file path. -/
theorem perfWrite_path (d : String) (p : String) (h1 : d ≠ "-") (h2 : d ≠ devnull) :
    perfWriteEffects d (some p) = [Effect.toPickle d p] := by
  simp [perfWriteEffects, h1, h2]

/-- Helper: perf handling never writes to stderr. -/
theorem echoErr_not_mem_perfWrite (d : String) (perf : Option String) (s : String) :
    Effect.echoErr s ∉ perfWriteEffects d perf := by
  cases perf with
  | none => simp [perfWriteEffects]
  | some p =>
      simp only [perfWriteEffects]
      split_ifs <;> simp

/-- Helper: perf handling never opens a file for writing (it pickles). -/
theorem fileWrite_not_mem_perfWrite (d : String) (perf : Option String)
    (pa dd : String) : Effect.fileWrite pa dd ∉ perfWriteEffects d perf := by
  cases perf with
  | none => simp [perfWriteEffects]
  | some p =>
      simp only [perfWriteEffects]
      split_ifs <;> simp

/-- Helper: log handling never pickles. -/
theorem toPickle_not_mem_logWrite (lo : String) (log : Option String)
    (le : List Effect) (hle : logWriteEffects lo log = Except.ok le)
    (pa dd : String) : Effect.toPickle pa dd ∉ le := by
  simp only [logWriteEffects] at hle
  split_ifs at hle
  · cases hle
    simp
  · cases log with
    | some s =>
        cases hle
        simp
    | none => cases hle
  · cases hle
    simp

/-- C2: for `remote-status` with a triple poll response carrying a present
log and a present result: the log goes to stderr when the log destination
is `-`, to the file at any other non-discard token, and nowhere when it is
the discard sentinel; the result goes to stdout behind the explanatory
label when the data destination is `-`, to a pickle at any other
non-discard token, and nowhere when it is the discard sentinel; and the
status print is the last effect, after any log/result writes. -/
theorem c2_triple_response (o : RemoteStatusOpts) (i st p l : String)
    (effs : List Effect) (hid : o.algo_id = some i)
    (h : remote_status o (.triple st (some p) (some l)) = Except.ok effs) :
    (o.log_output = "-" → Effect.echoErr l ∈ effs) ∧
    (o.log_output ≠ "-" → o.log_output ≠ devnull →
      Effect.fileWrite o.log_output l ∈ effs) ∧
    (o.log_output = devnull →
      (∀ s, Effect.echoErr s ∉ effs) ∧ (∀ pa d, Effect.fileWrite pa d ∉ effs)) ∧
    (o.data_output = "-" →
      Effect.echoOut ("the performance data is:\n" ++ p) ∈ effs) ∧
    (o.data_output ≠ "-" → o.data_output ≠ devnull →
      Effect.toPickle o.data_output p ∈ effs) ∧
    (o.data_output = devnull → ∀ pa d, Effect.toPickle pa d ∉ effs) ∧
    effs.getLast? = some (Effect.printOut st) := by
  simp only [remote_status, hid] at h
  cases hle : logWriteEffects o.log_output (some l) with
  | error e =>
      rw [hle] at h
      exact absurd h (by simp)
  | ok le =>
      rw [hle] at h
      obtain rfl :
          [Effect.callPoll i] ++ le ++ perfWriteEffects o.data_output (some p) ++
            [Effect.printOut st] = effs := Except.ok.inj h
      refine ⟨?_, ?_, ?_, ?_, ?_, ?_, getLast_app _ _⟩
      · intro h1
        rw [h1, logWrite_dash] at hle
        obtain rfl := (Except.ok.inj hle)
        simp
      · intro h1 h2
        rw [logWrite_path _ _ h1 h2] at hle
        obtain rfl := (Except.ok.inj hle)
        simp
      · intro h1
        rw [h1, logWrite_devnull] at hle
        obtain rfl := (Except.ok.inj hle)
        constructor
        · intro s
          simp [echoErr_not_mem_perfWrite]
        · intro pa d
          simp [fileWrite_not_mem_perfWrite]
      · intro h1
        rw [h1, perfWrite_dash]
        simp
      · intro h1 h2
        rw [perfWrite_path _ _ h1 h2]
        simp
      · intro h1 pa d
        rw [h1, perfWrite_devnull]
        have := toPickle_not_mem_logWrite _ _ _ hle pa d
        simp [this]

/-- Witness for C2: a completed job polled with both destinations at `-`. -/
theorem c2_witness :
    (c2o.log_output = "-" → Effect.echoErr "LOG" ∈ c2effs) ∧
    (c2o.log_output ≠ "-" → c2o.log_output ≠ devnull →
      Effect.fileWrite c2o.log_output "LOG" ∈ c2effs) ∧
    (c2o.log_output = devnull →
      (∀ s, Effect.echoErr s ∉ c2effs) ∧ (∀ pa d, Effect.fileWrite pa d ∉ c2effs)) ∧
    (c2o.data_output = "-" →
      Effect.echoOut ("the performance data is:\n" ++ "PERF") ∈ c2effs) ∧
    (c2o.data_output ≠ "-" → c2o.data_output ≠ devnull →
      Effect.toPickle c2o.data_output "PERF" ∈ c2effs) ∧
    (c2o.data_output = devnull → ∀ pa d, Effect.toPickle pa d ∉ c2effs) ∧
    c2effs.getLast? = some (Effect.printOut "completed") :=
  c2_triple_response c2o "job-1" "completed" "PERF" "LOG" c2effs rfl rfl

/-- Helper: `run` validation passes when exactly one source, both dates,
exchange, quote currency and capital are supplied. -/
theorem runChecks_none (o : RunOpts)
    (h1 : o.algotext.isSome ≠ o.algofile.isSome)
    (h2 : o.start.isSome) (h3 : o.end_.isSome) (h4 : o.exchange_name.isSome)
    (h5 : o.quote_currency.isSome) (h6 : o.capital_base.isSome) :
    runChecks o = none := by
  obtain ⟨sv, hs⟩ := Option.isSome_iff_exists.mp h2
  obtain ⟨ev, he⟩ := Option.isSome_iff_exists.mp h3
  obtain ⟨xv, hx⟩ := Option.isSome_iff_exists.mp h4
  obtain ⟨qv, hq⟩ := Option.isSome_iff_exists.mp h5
  obtain ⟨cv, hc⟩ := Option.isSome_iff_exists.mp h6
  simp [runChecks, hs, he, hx, hq, hc, h1]

/-- Helper: `live` validation passes when exactly one source, exchange,
namespace label, quote currency and capital are supplied. -/
theorem liveChecks_none (o : LiveOpts)
    (h1 : o.algotext.isSome ≠ o.algofile.isSome)
    (h4 : o.exchange_name.isSome) (h7 : o.algo_namespace.isSome)
    (h5 : o.quote_currency.isSome) (h6 : o.capital_base.isSome) :
    liveChecks o = none := by
  obtain ⟨xv, hx⟩ := Option.isSome_iff_exists.mp h4
  obtain ⟨nv, hn⟩ := Option.isSome_iff_exists.mp h7
  obtain ⟨qv, hq⟩ := Option.isSome_iff_exists.mp h5
  obtain ⟨cv, hc⟩ := Option.isSome_iff_exists.mp h6
  simp [liveChecks, hx, hn, hq, hc, h1]

/-- Helper: `remote-run` validation passes when the `run` rules hold and
the mail matches the shape. -/
theorem remoteRunChecks_none (o : RemoteRunOpts)
    (h1 : o.algotext.isSome ≠ o.algofile.isSome)
    (h2 : o.start.isSome) (h3 : o.end_.isSome) (h4 : o.exchange_name.isSome)
    (h5 : o.quote_currency.isSome) (h6 : o.capital_base.isSome)
    (m : String) (h7 : o.mail = some m) (h8 : reMatchEmail m = true) :
    remoteRunChecks o = none := by
  obtain ⟨sv, hs⟩ := Option.isSome_iff_exists.mp h2
  obtain ⟨ev, he⟩ := Option.isSome_iff_exists.mp h3
  obtain ⟨xv, hx⟩ := Option.isSome_iff_exists.mp h4
  obtain ⟨qv, hq⟩ := Option.isSome_iff_exists.mp h5
  obtain ⟨cv, hc⟩ := Option.isSome_iff_exists.mp h6
  simp [remoteRunChecks, hs, he, hx, hq, hc, h1, h7, h8]

/-- Helper: the `run` output handling never invokes a collaborator. -/
theorem callRun_not_mem_outputEffectsRun (out perf : String) (lv : Bool)
    (ln : Option Bool) : Effect.callRun lv ln ∉ outputEffectsRun out perf := by
  simp only [outputEffectsRun]
  split_ifs <;> simp

/-- Helper: the `live` output handling never invokes a collaborator. -/
theorem callRun_not_mem_outputEffectsLive (out perf : String) (lv : Bool)
    (ln : Option Bool) : Effect.callRun lv ln ∉ outputEffectsLive out perf := by
  simp only [outputEffectsLive]
  split_ifs <;> simp

/-- C3 counterexample: the claim quantifies over every artifact-writing
command, but `live` has no `--` branch: with the destination token `--`
and an existing perf artifact, `live` pickles the perf to a file literally
named `--`, so `--` does cause a write. -/
theorem c3_counterexample :
    live c3lo "P" = Except.ok [Effect.echoOut "Running in paper trading mode.",
      Effect.callRun true none, Effect.toPickle "--" "P"] ∧
    ([Effect.echoOut "Running in paper trading mode.", Effect.callRun true none,
      Effect.toPickle "--" "P"].countP isWrite) = 1 := ⟨rfl, rfl⟩

/-- Helper: `run` output handling at a plain file path. -/
theorem outputRun_path (out perf : String) (h1 : out ≠ "--") (h2 : out ≠ "-")
    (h3 : out ≠ devnull) :
    outputEffectsRun out perf = [Effect.toPickle out perf] := by
  simp [outputEffectsRun, h1, h2, h3]

/-- Helper: `live` output handling at a plain file path. -/
theorem outputLive_path (out perf : String) (h2 : out ≠ "-") (h3 : out ≠ devnull) :
    outputEffectsLive out perf = [Effect.toPickle out perf] := by
  simp [outputEffectsLive, h2, h3]

/-- C3 amended: token `--` suppresses the write only in `run`; in `live`
and `remote-status` it is an ordinary filesystem path. The discard sentinel
never causes a write anywhere, and any token other than the console token
`-` (and, for `run` only, `--`) and the discard sentinel is treated as a
filesystem path to which the artifact is persisted exactly once. -/
theorem c3_amended :
    (∀ (o : RunOpts) (perf : String) (effs : List Effect),
      run o perf = Except.ok effs →
      ((o.output = "--" ∨ o.output = devnull) → effs.countP isWrite = 0) ∧
      (o.output ≠ "-" → o.output ≠ "--" → o.output ≠ devnull →
        effs.countP isWrite = 1 ∧ Effect.toPickle o.output perf ∈ effs)) ∧
    (∀ (o : LiveOpts) (perf : String) (effs : List Effect),
      live o perf = Except.ok effs →
      (o.output = devnull → effs.countP isWrite = 0) ∧
      (o.output ≠ "-" → o.output ≠ devnull →
        effs.countP isWrite = 1 ∧ Effect.toPickle o.output perf ∈ effs)) ∧
    (∀ (o : RemoteStatusOpts) (st p l : String) (effs : List Effect),
      remote_status o (.triple st (some p) (some l)) = Except.ok effs →
      (o.log_output = devnull → ∀ pa d, Effect.fileWrite pa d ∉ effs) ∧
      (o.data_output = devnull → ∀ pa d, Effect.toPickle pa d ∉ effs) ∧
      (o.data_output = devnull → o.log_output = devnull →
        effs.countP isWrite = 0) ∧
      (o.log_output ≠ "-" → o.log_output ≠ devnull →
        effs.count (Effect.fileWrite o.log_output l) = 1) ∧
      (o.data_output ≠ "-" → o.data_output ≠ devnull →
        effs.count (Effect.toPickle o.data_output p) = 1)) := by
  refine ⟨?_, ?_, ?_⟩
  · intro o perf effs h
    cases hc : runChecks o with
    | some m => simp [run, hc] at h
    | none =>
        simp only [run, hc] at h
        obtain rfl := Except.ok.inj h
        constructor
        · rintro (h1 | h1) <;> rw [h1] <;>
            simp [outputEffectsRun, devnull, isWrite, List.countP_append,
              List.countP_cons]
        · intro h1 h2 h3
          rw [outputRun_path _ _ h2 h1 h3]
          constructor
          · simp [isWrite, List.countP_append, List.countP_cons]
          · simp
  · intro o perf effs h
    cases hc : liveChecks o with
    | some m => simp [live, hc] at h
    | none =>
        simp only [live, hc] at h
        obtain rfl := Except.ok.inj h
        constructor
        · intro h1
          rw [h1]
          cases o.simulate_orders <;>
            simp [outputEffectsLive, devnull, isWrite, List.countP_append,
              List.countP_cons]
        · intro h2 h3
          rw [outputLive_path _ _ h2 h3]
          constructor
          · cases o.simulate_orders <;>
              simp [isWrite, List.countP_append, List.countP_cons]
          · cases o.simulate_orders <;> simp
  · intro o st p l effs h
    cases hid : o.algo_id with
    | none => simp [remote_status, hid] at h
    | some i =>
        simp only [remote_status, hid] at h
        cases hle : logWriteEffects o.log_output (some l) with
        | error e =>
            rw [hle] at h
            exact absurd h (by simp)
        | ok le =>
            rw [hle] at h
            obtain rfl :
                [Effect.callPoll i] ++ le ++
                  perfWriteEffects o.data_output (some p) ++
                  [Effect.printOut st] = effs := Except.ok.inj h
            refine ⟨?_, ?_, ?_, ?_, ?_⟩
            · intro hlg pa d
              rw [hlg, logWrite_devnull] at hle
              obtain rfl := Except.ok.inj hle
              simp [fileWrite_not_mem_perfWrite]
            · intro hd pa d
              rw [hd, perfWrite_devnull]
              have := toPickle_not_mem_logWrite _ _ _ hle pa d
              simp [this]
            · intro hd hlg
              rw [hlg, logWrite_devnull] at hle
              obtain rfl := Except.ok.inj hle
              rw [hd, perfWrite_devnull]
              simp [isWrite, List.countP_append, List.countP_cons]
            · intro h1 h2
              rw [logWrite_path _ _ h1 h2] at hle
              obtain rfl := Except.ok.inj hle
              have hpe := List.count_eq_zero.2
                (fileWrite_not_mem_perfWrite o.data_output (some p)
                  o.log_output l)
              simp [List.count_append, List.count_cons, hpe]
            · intro h1 h2
              rw [perfWrite_path _ _ h1 h2]
              have hl0 := List.count_eq_zero.2
                (toPickle_not_mem_logWrite _ _ _ hle o.data_output p)
              simp [List.count_append, List.count_cons, hl0]

/-- Witness for the C3 amended theorem: `run` at a plain path persists the
perf exactly once. -/
theorem c3_amended_witness :
    [Effect.echoOut "Running in backtesting mode.", Effect.callRun false none,
      Effect.toPickle "out.pkl" "P"].countP isWrite = 1 ∧
    Effect.toPickle "out.pkl" "P" ∈
      [Effect.echoOut "Running in backtesting mode.", Effect.callRun false none,
        Effect.toPickle "out.pkl" "P"] :=
  (c3_amended.1 c3ro "P"
    [Effect.echoOut "Running in backtesting mode.", Effect.callRun false none,
      Effect.toPickle "out.pkl" "P"] rfl).2 (by decide) (by decide) (by decide)

/-- C4: `ingest-exchange` with an exchange name outside the known-exchange
set and no csv override fails with a message listing the set; with a csv
override supplied, validation succeeds for any exchange name, and the data
selection the ingestion uses ignores any supplied start/end/include/exclude
values entirely. -/
theorem c4_ingest_csv_override (o : IngestOpts) (name : String)
    (hname : o.exchange_name = some name) :
    (o.csv = none → name ∉ EXCHANGE_NAMES →
      ingest_exchange o = Except.error
        ("ingest-exchange does not support " ++ name ++
         ", please choose exchange from: " ++ pyListRepr EXCHANGE_NAMES)) ∧
    (∀ c, o.csv = some c → c ≠ "" → (ingest_exchange o).isOk = true) ∧
    (∀ s1 e1 i1 x1 s2 e2 i2 x2 c, c ≠ "" →
      effectiveIngestSelection s1 e1 i1 x1 (some c) =
        effectiveIngestSelection s2 e2 i2 x2 (some c)) := by
  refine ⟨?_, ?_, ?_⟩
  · intro h1 h2
    simp [ingest_exchange, ingestChecks, hname, h1, pyTruthy, h2]
  · intro c h1 h2
    have hempty : c.isEmpty = false := by
      cases hE : c.isEmpty
      · rfl
      · exact absurd ((String.isEmpty_iff c).mp hE) h2
    have ht : pyTruthy o.csv = true := by
      simp [h1, pyTruthy, hempty]
    simp [ingest_exchange, ingestChecks, hname, ht, Except.isOk, Except.toBool]
  · intro s1 e1 i1 x1 s2 e2 i2 x2 c hc
    have hempty : c.isEmpty = false := by
      cases hE : c.isEmpty
      · rfl
      · exact absurd ((String.isEmpty_iff c).mp hE) hc
    simp [effectiveIngestSelection, pyTruthy, hempty]

/-- Witness for C4: `unknownxyz` without csv fails listing the set;
`unknownxyz` with a csv override passes validation; the effective selection
is independent of the supplied filters. -/
theorem c4_witness :
    ingest_exchange c4o = Except.error
      ("ingest-exchange does not support " ++ "unknownxyz" ++
       ", please choose exchange from: " ++ pyListRepr EXCHANGE_NAMES) ∧
    (ingest_exchange c4oc).isOk = true ∧
    effectiveIngestSelection (some "2017-01-01") none (some "btc_usd") none
        (some "bars.csv") =
      effectiveIngestSelection none none none none (some "bars.csv") :=
  ⟨(c4_ingest_csv_override c4o "unknownxyz" rfl).1 rfl (by decide),
   (c4_ingest_csv_override c4oc "unknownxyz" rfl).2.1 "bars.csv" rfl (by decide),
   (c4_ingest_csv_override c4oc "unknownxyz" rfl).2.2 (some "2017-01-01") none
     (some "btc_usd") none none none none none "bars.csv" (by decide)⟩

/-- C5: for `run` and `remote-run` with exactly one algorithm source: start
without end fails with the message naming `--end`; end without start fails
with the message naming `--start`; neither fails with the joint message
naming both (the joint check comes first in the source). -/
theorem c5_date_checks (ro : RunOpts) (mo : RemoteRunOpts) (perf aid : String)
    (hr : ro.algotext.isSome ≠ ro.algofile.isSome)
    (hm : mo.algotext.isSome ≠ mo.algofile.isSome) :
    (ro.start = none → ro.end_ = none → run ro perf = Except.error
      "must specify dates with '-s' / '--start' and '-e' / '--end' in backtest mode") ∧
    (ro.start.isSome → ro.end_ = none → run ro perf = Except.error
      "must specify an end date with '-e' / '--end' in backtest mode") ∧
    (ro.start = none → ro.end_.isSome → run ro perf = Except.error
      "must specify a start date with '-s' / '--start' in backtest mode") ∧
    (mo.start = none → mo.end_ = none → remote_run mo aid = Except.error
      "must specify dates with '-s' / '--start' and '-e' / '--end' in backtest mode") ∧
    (mo.start.isSome → mo.end_ = none → remote_run mo aid = Except.error
      "must specify an end date with '-e' / '--end' in backtest mode") ∧
    (mo.start = none → mo.end_.isSome → remote_run mo aid = Except.error
      "must specify a start date with '-s' / '--start' in backtest mode") := by
  refine ⟨?_, ?_, ?_, ?_, ?_, ?_⟩
  · intro h1 h2
    simp [run, runChecks, hr, h1, h2]
  · intro h1 h2
    obtain ⟨sv, hs⟩ := Option.isSome_iff_exists.mp h1
    simp [run, runChecks, hr, hs, h2]
  · intro h1 h2
    obtain ⟨ev, he⟩ := Option.isSome_iff_exists.mp h2
    simp [run, runChecks, hr, h1, he]
  · intro h1 h2
    simp [remote_run, remoteRunChecks, hm, h1, h2]
  · intro h1 h2
    obtain ⟨sv, hs⟩ := Option.isSome_iff_exists.mp h1
    simp [remote_run, remoteRunChecks, hm, hs, h2]
  · intro h1 h2
    obtain ⟨ev, he⟩ := Option.isSome_iff_exists.mp h2
    simp [remote_run, remoteRunChecks, hm, h1, he]

/-- Witness for C5 at concrete invocations of both commands. -/
theorem c5_witness :
    run c5ro "P" = Except.error
      "must specify an end date with '-e' / '--end' in backtest mode" ∧
    run c5ro2 "P" = Except.error
      "must specify a start date with '-s' / '--start' in backtest mode" ∧
    run c5ro3 "P" = Except.error
      "must specify dates with '-s' / '--start' and '-e' / '--end' in backtest mode" ∧
    remote_run c5mo "A" = Except.error
      "must specify an end date with '-e' / '--end' in backtest mode" ∧
    remote_run c5mo2 "A" = Except.error
      "must specify a start date with '-s' / '--start' in backtest mode" ∧
    remote_run c5mo3 "A" = Except.error
      "must specify dates with '-s' / '--start' and '-e' / '--end' in backtest mode" :=
  ⟨(c5_date_checks c5ro c5mo "P" "A" (by decide) (by decide)).2.1 rfl rfl,
   (c5_date_checks c5ro2 c5mo2 "P" "A" (by decide) (by decide)).2.2.1 rfl rfl,
   (c5_date_checks c5ro3 c5mo3 "P" "A" (by decide) (by decide)).1 rfl rfl,
   (c5_date_checks c5ro c5mo "P" "A" (by decide) (by decide)).2.2.2.2.1 rfl rfl,
   (c5_date_checks c5ro2 c5mo2 "P" "A" (by decide) (by decide)).2.2.2.2.2 rfl rfl,
   (c5_date_checks c5ro3 c5mo3 "P" "A" (by decide) (by decide)).2.2.2.1 rfl rfl⟩

/-- C6: for `remote-run` with every other rule satisfied, a missing or
ill-shaped mail fails validation before any submission (no effect list is
produced), `"not-an-email"` fails the shape check, `"ops@example.com"`
passes it, and a shape-passing mail lets the command proceed. -/
theorem c6_mail_validation (mo : RemoteRunOpts) (aid : String)
    (hx : mo.algotext.isSome ≠ mo.algofile.isSome)
    (hs : mo.start.isSome) (he : mo.end_.isSome) (hex : mo.exchange_name.isSome)
    (hq : mo.quote_currency.isSome) (hc : mo.capital_base.isSome) :
    (mo.mail = none →
      remote_run mo aid = Except.error "must specify a valid email with '--mail'" ∧
      ∀ effs, remote_run mo aid ≠ Except.ok effs) ∧
    (∀ m, mo.mail = some m → reMatchEmail m = false →
      remote_run mo aid = Except.error "must specify a valid email with '--mail'" ∧
      ∀ effs, remote_run mo aid ≠ Except.ok effs) ∧
    reMatchEmail "not-an-email" = false ∧
    reMatchEmail "ops@example.com" = true ∧
    (∀ m, mo.mail = some m → reMatchEmail m = true →
      (remote_run mo aid).isOk = true) := by
  obtain ⟨sv, hsv⟩ := Option.isSome_iff_exists.mp hs
  obtain ⟨ev, hev⟩ := Option.isSome_iff_exists.mp he
  obtain ⟨xv, hxv⟩ := Option.isSome_iff_exists.mp hex
  obtain ⟨qv, hqv⟩ := Option.isSome_iff_exists.mp hq
  obtain ⟨cv, hcv⟩ := Option.isSome_iff_exists.mp hc
  refine ⟨?_, ?_, by decide, by decide, ?_⟩
  · intro h1
    have herr : remote_run mo aid =
        Except.error "must specify a valid email with '--mail'" := by
      simp [remote_run, remoteRunChecks, hx, hsv, hev, hxv, hqv, hcv, h1]
    exact ⟨herr, fun effs hok => by simp [herr] at hok⟩
  · intro m h1 h2
    have herr : remote_run mo aid =
        Except.error "must specify a valid email with '--mail'" := by
      simp [remote_run, remoteRunChecks, hx, hsv, hev, hxv, hqv, hcv, h1, h2]
    exact ⟨herr, fun effs hok => by simp [herr] at hok⟩
  · intro m h1 h2
    simp [remote_run,
      remoteRunChecks_none mo hx hs he hex hq hc m h1 h2, Except.isOk, Except.toBool]

/-- Witness for C6: the malformed address is rejected with no submission,
the well-formed one is accepted. -/
theorem c6_witness :
    (remote_run c6mo "A" = Except.error "must specify a valid email with '--mail'" ∧
      ∀ effs, remote_run c6mo "A" ≠ Except.ok effs) ∧
    (remote_run baseRemoteRunOpts "A").isOk = true :=
  ⟨(c6_mail_validation c6mo "A" (by decide) rfl rfl rfl rfl rfl).2.1
      "not-an-email" rfl (by decide),
   (c6_mail_validation baseRemoteRunOpts "A" (by decide) rfl rfl rfl rfl
      rfl).2.2.2.2 "ops@example.com" rfl (by decide)⟩

/-- C7: `remote-status` with a bare status response only polls and prints
the status — no write to the data or log destinations occurs. -/
theorem c7_bare_status (o : RemoteStatusOpts) (i s : String)
    (hid : o.algo_id = some i) :
    remote_status o (.bare s) =
      Except.ok [Effect.callPoll i, Effect.printOut s] ∧
    [Effect.callPoll i, Effect.printOut s].countP isWrite = 0 := by
  constructor
  · simp [remote_status, hid]
  · rfl

/-- Witness for C7 at a concrete poll. -/
theorem c7_witness :
    remote_status c7o (.bare "running") =
      Except.ok [Effect.callPoll "job-2", Effect.printOut "running"] ∧
    [Effect.callPoll "job-2", Effect.printOut "running"].countP isWrite = 0 :=
  c7_bare_status c7o "job-2" "running" rfl

/-- C8: `live` fails validation whenever any of exchange name, namespace
label, quote currency or capital base is absent, while `run` passes
validation with no namespace label when all its own rules are met. -/
theorem c8_live_requires_namespace (lo : LiveOpts) (ro : RunOpts)
    (perf lperf : String)
    (hl : lo.algotext.isSome ≠ lo.algofile.isSome)
    (hmiss : lo.exchange_name = none ∨ lo.algo_namespace = none ∨
      lo.quote_currency = none ∨ lo.capital_base = none)
    (hr : ro.algotext.isSome ≠ ro.algofile.isSome)
    (hs : ro.start.isSome) (he : ro.end_.isSome) (hx : ro.exchange_name.isSome)
    (hq : ro.quote_currency.isSome) (hc : ro.capital_base.isSome)
    (hn : ro.algo_namespace = none) :
    (∃ msg, live lo lperf = Except.error msg) ∧ (run ro perf).isOk = true := by
  constructor
  · cases hchk : liveChecks lo with
    | some msg => exact ⟨msg, by simp [live, hchk]⟩
    | none =>
        exfalso
        simp only [liveChecks] at hchk
        split_ifs at hchk with g1 g2 g3 g4 g5
        rcases hmiss with h | h | h | h
        · exact g2 (by simp [h])
        · exact g3 (by simp [h])
        · exact g4 (by simp [h])
        · exact g5 (by simp [h])
  · simp [run, runChecks_none ro hr hs he hx hq hc, Except.isOk, Except.toBool]

/-- Witness for C8: `live` without a namespace label fails; `run` without
one passes validation. -/
theorem c8_witness :
    (∃ msg, live c8lo "P" = Except.error msg) ∧
    (run baseRunOpts "P").isOk = true :=
  c8_live_requires_namespace c8lo baseRunOpts "P" "P" (by decide)
    (Or.inr (Or.inl rfl)) (by decide) rfl rfl rfl rfl rfl rfl

/-- C9: validation is a pure function of the supplied options. For `run`,
`live` and `remote-run` the accept/reject outcome and the diagnostic do not
depend on anything the external collaborator later produces, and for an
invalid `remote-status` invocation the result does not depend on the poll
response; two invocations on identical option sets therefore yield the
identical outcome and diagnostic. -/
theorem c9_validation_pure :
    (∀ (o : RunOpts) (p q : String), errOf (run o p) = errOf (run o q)) ∧
    (∀ (o : LiveOpts) (p q : String), errOf (live o p) = errOf (live o q)) ∧
    (∀ (o : RemoteRunOpts) (p q : String),
      errOf (remote_run o p) = errOf (remote_run o q)) ∧
    (∀ (o : RemoteStatusOpts) (r r' : StatusResponse), o.algo_id = none →
      remote_status o r = remote_status o r') := by
  refine ⟨?_, ?_, ?_, ?_⟩
  · intro o p q
    cases hc : runChecks o <;> simp [run, hc, errOf]
  · intro o p q
    cases hc : liveChecks o <;> simp [live, hc, errOf]
  · intro o p q
    cases hc : remoteRunChecks o <;> simp [remote_run, hc, errOf]
  · intro o r r' h
    simp [remote_status, h]

/-- Witness for C9: an id-less `remote-status` yields the same outcome for
two different poll responses. -/
theorem c9_witness :
    remote_status c9o (.bare "x") = remote_status c9o (.triple "x" none none) :=
  c9_validation_pure.2.2.2 c9o (.bare "x") (.triple "x" none none) rfl

/-- C10: outside IPython the `ipython_only` wrapper overwrites the
local-namespace option with `None`, so any collaborator invocation that
`run`, `live` or `remote-run` performs forwards `local_namespace = None`,
whatever the operator supplied. -/
theorem c10_ipython_local_namespace
    (ro : RunOpts) (lo : LiveOpts) (mo : RemoteRunOpts) (p q a : String) :
    (∀ effs, run (ipython_only_run false ro) p = Except.ok effs →
      Effect.callRun false none ∈ effs ∧
      ∀ lv b, Effect.callRun lv (some b) ∉ effs) ∧
    (∀ effs, live (ipython_only_live false lo) q = Except.ok effs →
      Effect.callRun true none ∈ effs ∧
      ∀ lv b, Effect.callRun lv (some b) ∉ effs) ∧
    (∀ effs, remote_run (ipython_only_remote_run false mo) a = Except.ok effs →
      Effect.callRemoteBacktest none (pyStr mo.mail) ∈ effs ∧
      ∀ b m, Effect.callRemoteBacktest (some b) m ∉ effs) := by
  refine ⟨?_, ?_, ?_⟩
  · intro effs h
    have hw : ipython_only_run false ro = { ro with local_namespace := none } := rfl
    rw [hw] at h
    cases hc : runChecks { ro with local_namespace := none } with
    | some m => simp [run, hc] at h
    | none =>
        simp only [run, hc] at h
        obtain rfl := Except.ok.inj h
        constructor
        · simp
        · intro lv b
          simp [callRun_not_mem_outputEffectsRun]
  · intro effs h
    have hw : ipython_only_live false lo = { lo with local_namespace := none } := rfl
    rw [hw] at h
    cases hc : liveChecks { lo with local_namespace := none } with
    | some m => simp [live, hc] at h
    | none =>
        simp only [live, hc] at h
        obtain rfl := Except.ok.inj h
        constructor
        · cases lo.simulate_orders <;> simp
        · intro lv b
          cases lo.simulate_orders <;>
            simp [callRun_not_mem_outputEffectsLive]
  · intro effs h
    have hw : ipython_only_remote_run false mo =
        { mo with local_namespace := none } := rfl
    rw [hw] at h
    cases hc : remoteRunChecks { mo with local_namespace := none } with
    | some m => simp [remote_run, hc] at h
    | none =>
        simp only [remote_run, hc] at h
        obtain rfl := Except.ok.inj h
        constructor
        · simp
        · intro b m
          simp

/-- Witness for C10: operators supplied local-namespace values, yet each
collaborator call forwards `None`. -/
theorem c10_witness :
    (Effect.callRun false none ∈ c10runEffs ∧
      ∀ lv b, Effect.callRun lv (some b) ∉ c10runEffs) ∧
    (Effect.callRun true none ∈ c10liveEffs ∧
      ∀ lv b, Effect.callRun lv (some b) ∉ c10liveEffs) ∧
    (Effect.callRemoteBacktest none "ops@example.com" ∈ c10remoteEffs ∧
      ∀ b m, Effect.callRemoteBacktest (some b) m ∉ c10remoteEffs) :=
  ⟨(c10_ipython_local_namespace c10ro c10lo c10mo "P" "P" "A").1 c10runEffs rfl,
   (c10_ipython_local_namespace c10ro c10lo c10mo "P" "P" "A").2.1 c10liveEffs rfl,
   (c10_ipython_local_namespace c10ro c10lo c10mo "P" "P" "A").2.2 c10remoteEffs rfl⟩

end Catalyst
